import Mathlib

/-!
Shallow embedding of the birdhouse-viewer motion services:

* `motion_video_capture.py` — the capture session manager: MQTT router
  (`on_message`), trigger handling (`start_video_capture`), frame ingestion
  (`process_stream_message`), finalize/abort (`finalize_video`), retention
  (`cleanup_old_videos`), and persistence (`save_video_to_db`,
  `create_motion_event`, `get_device_info`).
* `motion_notification_handler.py` — the notification handler: its
  `on_message`, `record_motion_event`, `mark_notification_sent` and
  `send_push_notification_to_device_users`.

External collaborators (MySQL, the filesystem, ffmpeg, the HTTP push API,
UTF-8/JSON/base64 decoding) are modelled at their boundary: database tables
are lists of rows, the filesystem is a path-to-size map, and each fallible
collaborator call takes an explicit success/failure oracle drawn from an
environment record.  Ghost `log_*` fields record collaborator invocations
(finalize entry, encoder calls, retention-enforcer calls) so that theorems
can speak about "the encoder was never invoked" and similar events.
-/

namespace Birdhouse

/-- Decoded image bytes of one frame (`base64.b64decode(data['image'])`). -/
abbrev Frame := List Nat

/-- Row of the `devices` table as fetched by `get_device_info`
(`SELECT id, userId, name FROM devices WHERE deviceId = %s`). -/
structure DeviceRow where
  deviceId : String
  id : Nat
  userId : Nat
  name : String
deriving DecidableEq

/-- Row of the `motionEvents` table as inserted by the capture service. -/
structure MotionEventRow where
  id : Nat
  deviceId : Nat
  notificationSent : Nat
deriving DecidableEq

/-- Row of the `motionVideos` table. -/
structure VideoRow where
  id : Nat
  deviceId : Nat
  motionEventId : Nat
  filename : String
  filepath : String
  duration : Nat
  filesize : Nat
  capturedAt : Nat
deriving DecidableEq

/-- The capture service's slice of the database.  `next*Id` model the
AUTO_INCREMENT counters that produce `cursor.lastrowid`. -/
structure CaptureDB where
  motionEvents : List MotionEventRow
  nextMotionEventId : Nat
  motionVideos : List VideoRow
  nextVideoId : Nat
deriving DecidableEq

/-- One entry of `active_captures`:
`{'frames': [], 'start_time': ts, 'motion_event_id': id, 'device_db_id': id}`. -/
structure Capture where
  frames : List Frame
  start_time : Nat
  motion_event_id : Nat
  device_db_id : Nat
deriving DecidableEq

/-- Whole-service state: the `active_captures` dict, the database, the
filesystem (path to byte size), the MQTT messages published so far, and
ghost logs of collaborator invocations. -/
structure ServiceState where
  active_captures : List (String × Capture)
  db : CaptureDB
  fs : List (String × Nat)
  published : List (String × String)
  log_finalize_calls : List (String × List Frame)
  log_encode_calls : List (List Frame)
  log_cleanup_calls : List Nat
deriving DecidableEq

/-- Per-message environment: the `devices` table contents, the wall clock
(`time.time()` / `NOW()`), and one success oracle per fallible collaborator
call that a single message can make. -/
structure Env where
  devices : List DeviceRow
  now : Nat
  deviceConnOk : Bool
  motionEventOk : Bool
  encodeResult : Option Nat
  saveOk : Bool
  cleanupOk : Bool
deriving DecidableEq

/-- `MAX_VIDEOS = 50`. -/
def MAX_VIDEOS : Nat := 50

/-- `VIDEO_DURATION = 5` (seconds). -/
def VIDEO_DURATION : Nat := 5

/-- `FRAME_RATE = 10` (frames per second). -/
def FRAME_RATE : Nat := 10

/-- `VIDEO_DIR = '/opt/birdhouse-viewer/videos'`. -/
def VIDEO_DIR : String := "/opt/birdhouse-viewer/videos"

/-- Python `dict` lookup on `active_captures` (`active_captures[device_id]`,
`device_id in active_captures`). -/
def alookup (k : String) : List (String × Capture) → Option Capture
  | [] => none
  | e :: rest => if e.1 = k then some e.2 else alookup k rest

/-- Python `dict` assignment `active_captures[device_id] = v` (overwrites an
existing binding). -/
def aset (k : String) (v : Capture) : List (String × Capture) → List (String × Capture)
  | [] => [(k, v)]
  | e :: rest => if e.1 = k then (k, v) :: rest else e :: aset k v rest

/-- Python `del active_captures[device_id]`.  A dict holds at most one
binding per key, so removing every binding of `k` is the same operation. -/
def aerase (k : String) : List (String × Capture) → List (String × Capture)
  | [] => []
  | e :: rest => if e.1 = k then aerase k rest else e :: aerase k rest

/-- Python `str.split('/')` on a topic: splits at every slash, keeping empty
segments. -/
def splitSlashChars : List Char → List (List Char)
  | [] => [[]]
  | c :: rest =>
    if c = '/' then [] :: splitSlashChars rest
    else
      match splitSlashChars rest with
      | [] => [[c]]
      | w :: ws => (c :: w) :: ws

/-- `topic.split('/')`. -/
def str_split_slash (s : String) : List String :=
  (splitSlashChars s.data).map (fun cs => String.mk cs)

/-- Whitespace set of Python `str.strip()` (the characters for which
`str.isspace()` holds): ASCII whitespace 0x09-0x0D and 0x20, the controls
0x1C-0x1F, NEL 0x85, and the Unicode space separators (NBSP 0xA0, OGHAM
0x1680, 0x2000-0x200A, the line/paragraph separators 0x2028/0x2029, NNBSP
0x202F, MMSP 0x205F, and the ideographic space 0x3000). -/
def isPySpace (c : Char) : Bool :=
  decide ((9 ≤ c.toNat ∧ c.toNat ≤ 13) ∨ (28 ≤ c.toNat ∧ c.toNat ≤ 31)
    ∨ c.toNat = 32 ∨ c.toNat = 0x85 ∨ c.toNat = 0xA0 ∨ c.toNat = 0x1680
    ∨ (0x2000 ≤ c.toNat ∧ c.toNat ≤ 0x200A) ∨ c.toNat = 0x2028 ∨ c.toNat = 0x2029
    ∨ c.toNat = 0x202F ∨ c.toNat = 0x205F ∨ c.toNat = 0x3000)

/-- Python `str.strip()`: drop leading and trailing whitespace. -/
def pystrip (s : String) : String :=
  String.mk (((s.data.dropWhile isPySpace).reverse.dropWhile isPySpace).reverse)

/-- `get_device_info`: `SELECT id, userId, name FROM devices WHERE deviceId = %s`
with `fetchone`; a failed database connection yields `None` as well. -/
def get_device_info (connOk : Bool) (devices : List DeviceRow) (device_id : String) :
    Option DeviceRow :=
  if connOk then devices.find? (fun d => d.deviceId == device_id) else none

/-- `create_motion_event`: INSERT INTO motionEvents with `notificationSent = 1`
(as the capture service writes it), returning `cursor.lastrowid`; any
connection/insert failure returns `None` and leaves the table unchanged. -/
def create_motion_event (ok : Bool) (device_db_id : Nat) (db : CaptureDB) :
    Option Nat × CaptureDB :=
  if ok then
    (some db.nextMotionEventId,
      { db with
        motionEvents :=
          db.motionEvents ++ [⟨db.nextMotionEventId, device_db_id, 1⟩],
        nextMotionEventId := db.nextMotionEventId + 1 })
  else (none, db)

/-- Rows of `motionVideos` for one device
(`SELECT ... FROM motionVideos WHERE deviceId = %s`). -/
def videosForDevice (db : CaptureDB) (device_db_id : Nat) : List VideoRow :=
  db.motionVideos.filter (fun v => v.deviceId == device_db_id)

/-- Insertion step for `ORDER BY capturedAt ASC`, ties broken by primary key. -/
def insertByTime (v : VideoRow) : List VideoRow → List VideoRow
  | [] => [v]
  | w :: rest =>
    if v.capturedAt < w.capturedAt ∨ (v.capturedAt = w.capturedAt ∧ v.id < w.id) then
      v :: w :: rest
    else w :: insertByTime v rest

/-- `ORDER BY capturedAt ASC` (stable; ties by primary key). -/
def sortByTime (vs : List VideoRow) : List VideoRow :=
  vs.foldr insertByTime []

/-- `os.remove(path)` on the path-to-size map (also the rollback delete). -/
def removeFile (path : String) : List (String × Nat) → List (String × Nat)
  | [] => []
  | e :: rest => if e.1 = path then removeFile path rest else e :: removeFile path rest

/-- `os.path.getsize(path)` (the path is present whenever the code calls it). -/
def getsize (fs : List (String × Nat)) (path : String) : Nat :=
  match fs.find? (fun e => e.1 == path) with
  | some e => e.2
  | none => 0

/-- `cleanup_old_videos`: count this device's videos; if `count >= MAX_VIDEOS`,
select the oldest `count - MAX_VIDEOS + 1` by `capturedAt`, delete each file
and its row.  A failed connection leaves everything unchanged.  The ghost
`log_cleanup_calls` records that the retention enforcer was invoked. -/
def cleanup_old_videos (connOk : Bool) (device_db_id : Nat) (st : ServiceState) :
    ServiceState :=
  let st1 := { st with log_cleanup_calls := st.log_cleanup_calls ++ [device_db_id] }
  if connOk then
    let count := (videosForDevice st1.db device_db_id).length
    if count ≥ MAX_VIDEOS then
      let videos_to_delete := count - MAX_VIDEOS + 1
      let old_videos := (sortByTime (videosForDevice st1.db device_db_id)).take videos_to_delete
      let fs2 := old_videos.foldl (fun f v => removeFile v.filepath f) st1.fs
      let keep := st1.db.motionVideos.filter
        (fun v => !(old_videos.any (fun o => o.id == v.id)))
      { st1 with fs := fs2, db := { st1.db with motionVideos := keep } }
    else st1
  else st1

/-- `save_video_to_db`: INSERT INTO motionVideos (duration = `VIDEO_DURATION`,
`capturedAt = NOW()`); returns whether the insert committed. -/
def save_video_to_db (ok : Bool) (device_db_id motion_event_id : Nat)
    (filename filepath : String) (filesize : Nat) (now : Nat) (db : CaptureDB) :
    Bool × CaptureDB :=
  if ok then
    (true,
      { db with
        motionVideos := db.motionVideos ++
          [⟨db.nextVideoId, device_db_id, motion_event_id, filename, filepath,
            VIDEO_DURATION, filesize, now⟩],
        nextVideoId := db.nextVideoId + 1 })
  else (false, db)

/-- `create_mjpeg_video`: invoke ffmpeg on the ordered frames; on success the
output path holds a file of some size (the encoder's choice, an oracle), on
failure nothing is written.  `-y` overwrites an existing file at the path.
The ghost `log_encode_calls` records every encoder invocation. -/
def create_mjpeg_video (encodeResult : Option Nat) (frames : List Frame)
    (output_path : String) (st : ServiceState) : Bool × ServiceState :=
  let st1 := { st with log_encode_calls := st.log_encode_calls ++ [frames] }
  match encodeResult with
  | some size => (true, { st1 with fs := removeFile output_path st1.fs ++ [(output_path, size)] })
  | none => (false, st1)

/-- `finalize_video`: look the session up; below 5 frames abort (drop the
session, nothing else); otherwise encode to
`VIDEO_DIR/<device>_<timestamp>.mjpeg`, measure the file, insert the
metadata row, on insert success run retention, on insert failure delete the
file; finally remove the session from `active_captures`.  The ghost
`log_finalize_calls` records each finalize call with its frame buffer. -/
def finalize_video (env : Env) (device_id : String) (st : ServiceState) : ServiceState :=
  match alookup device_id st.active_captures with
  | none => st
  | some capture =>
    let st1 := { st with
      log_finalize_calls := st.log_finalize_calls ++ [(device_id, capture.frames)] }
    if capture.frames.length < 5 then
      { st1 with active_captures := aerase device_id st1.active_captures }
    else
      let filename := device_id ++ "_" ++ toString env.now ++ ".mjpeg"
      let filepath := VIDEO_DIR ++ "/" ++ filename
      match create_mjpeg_video env.encodeResult capture.frames filepath st1 with
      | (false, st2) =>
        { st2 with active_captures := aerase device_id st2.active_captures }
      | (true, st2) =>
        let filesize := getsize st2.fs filepath
        match save_video_to_db env.saveOk capture.device_db_id capture.motion_event_id
            filename filepath filesize env.now st2.db with
        | (true, db2) =>
          let st3 := cleanup_old_videos env.cleanupOk capture.device_db_id { st2 with db := db2 }
          { st3 with active_captures := aerase device_id st3.active_captures }
        | (false, db2) =>
          { st2 with
            db := db2
            fs := removeFile filepath st2.fs
            active_captures := aerase device_id st2.active_captures }

/-- Result of the stream-payload decode pipeline
(`json.loads(message.decode('utf-8'))`, key check, `base64.b64decode`):
either the decode raises (caught and dropped), or the JSON has no `image`
key, or it yields the frame bytes. -/
inductive StreamPayload where
  | invalid : StreamPayload
  | jsonNoImage : StreamPayload
  | jsonImage : Frame → StreamPayload
deriving DecidableEq

/-- `process_stream_message`: decode the payload, append the frame to the
device's open capture, then finalize when the buffered count has reached
`VIDEO_DURATION * FRAME_RATE` or the elapsed time is at least
`VIDEO_DURATION + 1`. -/
def process_stream_message (env : Env) (device_id : String) (message : StreamPayload)
    (st : ServiceState) : ServiceState :=
  match message with
  | .invalid => st
  | .jsonNoImage => st
  | .jsonImage image_data =>
    match alookup device_id st.active_captures with
    | none => st
    | some capture =>
      let frames2 := capture.frames ++ [image_data]
      let st2 := { st with
        active_captures := aset device_id { capture with frames := frames2 } st.active_captures }
      let elapsed := env.now - capture.start_time
      let expected_frames := VIDEO_DURATION * FRAME_RATE
      if frames2.length ≥ expected_frames ∨ elapsed ≥ VIDEO_DURATION + 1 then
        finalize_video env device_id st2
      else st2

/-- `start_video_capture`: resolve the device, create the motion-event row,
then (unconditionally) assign `active_captures[device_id]` a fresh capture
and publish `start` on `device/<id>/control`.  The Python truthiness check
`if not motion_event_id` also treats a zero row id as failure. -/
def start_video_capture (env : Env) (device_id : String) (st : ServiceState) :
    ServiceState :=
  match get_device_info env.deviceConnOk env.devices device_id with
  | none => st
  | some device_info =>
    match create_motion_event env.motionEventOk device_info.id st.db with
    | (none, db2) => { st with db := db2 }
    | (some motion_event_id, db2) =>
      if motion_event_id = 0 then { st with db := db2 }
      else
        { st with
          db := db2,
          active_captures :=
            aset device_id ⟨[], env.now, motion_event_id, device_info.id⟩ st.active_captures,
          published := st.published ++ [("device/" ++ device_id ++ "/control", "start")] }

/-- Two decoder views of one raw MQTT payload: its UTF-8 decode (`none` when
`decode('utf-8')` raises) and its stream-pipeline interpretation. -/
structure MsgPayload where
  text : Option String
  stream : StreamPayload
deriving DecidableEq

/-- The capture service's `on_message`: split the topic, drop it when it has
fewer than three segments, else dispatch on the third segment: `motion`
starts a capture when the stripped payload is exactly `detected`; `stream`
feeds the open capture, if any. -/
def on_message (env : Env) (topic : String) (payload : MsgPayload) (st : ServiceState) :
    ServiceState :=
  let topic_parts := str_split_slash topic
  if topic_parts.length < 3 then st
  else
    match topic_parts with
    | _ :: device_id :: topic_type :: _ =>
      if topic_type = "motion" then
        match payload.text with
        | none => st
        | some s =>
          if pystrip s = "detected" then start_video_capture env device_id st else st
      else if topic_type = "stream" then
        if (alookup device_id st.active_captures).isSome then
          process_stream_message env device_id payload.stream st
        else st
      else st
    | _ => st

/-- Driver for a run of stream messages for one device: fold
`process_stream_message` over a list of (environment, payload) steps, the
bus delivering one message per step in arrival order. -/
def feed (d : String) (steps : List (Env × StreamPayload)) (st : ServiceState) :
    ServiceState :=
  steps.foldl (fun s p => process_stream_message p.1 d p.2 s) st

/-- Bytes carried by a valid stream payload. -/
def stepBytes (p : StreamPayload) : Frame :=
  match p with
  | .jsonImage b => b
  | _ => []

/-- Whether a stream payload is a decodable frame. -/
def stepValid (p : StreamPayload) : Bool :=
  match p with
  | .jsonImage _ => true
  | _ => false

/-- State after `capture['frames'].append(image_data)` inside
`process_stream_message`: the device's capture with one more frame. -/
def withFrame (d : String) (c : Capture) (b : Frame) (st : ServiceState) : ServiceState :=
  { st with active_captures := aset d { c with frames := c.frames ++ [b] } st.active_captures }

/-! The notification handler (`motion_notification_handler.py`). -/

/-- Row returned by the handler's `get_device_info` join
(`SELECT d.id, d.ownerId, d.name, d.deviceId, u.email, u.name ... WHERE
d.deviceId = %s AND d.isActive = 1`), modelled pre-joined. -/
structure NhDeviceRow where
  deviceId : String
  id : Nat
  ownerId : Nat
  name : String
  isActive : Bool
  email : String
  userName : String
deriving DecidableEq

/-- Row of `motionEvents` as the notification handler sees it. -/
structure NhEventRow where
  id : Nat
  deviceId : Nat
  notificationSent : Nat
deriving DecidableEq

/-- The handler's slice of the database; `nextId` models AUTO_INCREMENT. -/
structure NhDB where
  motionEvents : List NhEventRow
  nextId : Nat
deriving DecidableEq

/-- The handler's `get_device_info`: active devices only; a failed
connection yields `None`. -/
def nh_get_device_info (connOk : Bool) (devices : List NhDeviceRow) (device_id : String) :
    Option NhDeviceRow :=
  if connOk then devices.find? (fun d => d.deviceId == device_id && d.isActive) else none

/-- `record_motion_event`: INSERT INTO motionEvents with
`notificationSent = 0`, returning `cursor.lastrowid`; failure leaves the
table unchanged and returns `None`. -/
def record_motion_event (connOk : Bool) (device_id : Nat) (db : NhDB) : Option Nat × NhDB :=
  if connOk then
    (some db.nextId,
      { db with
        motionEvents := db.motionEvents ++ [⟨db.nextId, device_id, 0⟩],
        nextId := db.nextId + 1 })
  else (none, db)

/-- `mark_notification_sent`: `UPDATE motionEvents SET notificationSent = 1
WHERE id = %s`; a failed connection changes nothing. -/
def mark_notification_sent (connOk : Bool) (event_id : Nat) (db : NhDB) : NhDB :=
  if connOk then
    { db with
      motionEvents := db.motionEvents.map
        (fun r => if r.id = event_id then { r with notificationSent := 1 } else r) }
  else db

/-- `send_push_notification_to_device_users`: `False` when the API is not
configured; otherwise the HTTP POST either raises (`none`), or returns a
status code — only a 200 whose body parses as JSON yields `True`. -/
def send_push_notification_to_device_users (apiConfigured : Bool)
    (httpStatus : Option Nat) (respJsonOk : Bool) : Bool :=
  if !apiConfigured then false
  else
    match httpStatus with
    | none => false
    | some code => if code = 200 then respJsonOk else false

/-- Per-message environment of the notification handler. -/
structure NhEnv where
  devices : List NhDeviceRow
  deviceConnOk : Bool
  recordConnOk : Bool
  markConnOk : Bool
  apiConfigured : Bool
  httpStatus : Option Nat
  respJsonOk : Bool
deriving DecidableEq

/-- Raw payload as the handler decodes it: the UTF-8 text (`none` when
`decode('utf-8')` raises) and whether `json.loads` succeeds on it. -/
structure NhPayload where
  text : Option String
  jsonOk : Bool
deriving DecidableEq

/-- The notification handler's `on_message`: decode the payload, demand an
exactly-three-segment `device/<id>/motion` topic, parse the JSON, resolve
the device, record the motion event (`notificationSent = 0`), send the push
notification, and mark the event sent only when the send reported success. -/
def nh_on_message (env : NhEnv) (topic : String) (payload : NhPayload) (db : NhDB) : NhDB :=
  match payload.text with
  | none => db
  | some _ =>
    let topic_parts := str_split_slash topic
    if topic_parts.length ≠ 3 then db
    else
      match topic_parts with
      | [p0, device_id_str, p2] =>
        if p0 ≠ "device" ∨ p2 ≠ "motion" then db
        else if !payload.jsonOk then db
        else
          match nh_get_device_info env.deviceConnOk env.devices device_id_str with
          | none => db
          | some device_info =>
            match record_motion_event env.recordConnOk device_info.id db with
            | (none, db2) => db2
            | (some event_id, db2) =>
              if event_id = 0 then db2
              else
                if send_push_notification_to_device_users
                    env.apiConfigured env.httpStatus env.respJsonOk then
                  mark_notification_sent env.markConnOk event_id db2
                else db2
      | _ => db

/-! Concrete fixtures used by witnesses and counterexamples. -/

/-- A known device. -/
def devC1 : DeviceRow := ⟨"cam1", 1, 1, "Cam One"⟩

/-- Empty service state. -/
def st0 : ServiceState := ⟨[], ⟨[], 1, [], 1⟩, [], [], [], [], []⟩

/-- Environment with `cam1` known and all collaborators succeeding. -/
def env0 : Env := ⟨[devC1], 4, true, true, none, true, true⟩

/-- State with an open session for `cam1`: one buffered frame, started at 3,
correlation id 7. -/
def stC1 : ServiceState :=
  ⟨[("cam1", ⟨[[7]], 3, 7, 1⟩)], ⟨[⟨7, 1, 1⟩], 8, [], 1⟩, [], [], [], [], []⟩

/-- Environment for the retrigger scenario (clock at 4). -/
def envC1 : Env := ⟨[devC1], 4, true, true, none, true, true⟩

/-- State with an open session for `cam1` holding 9 frames, started at 0. -/
def stB : ServiceState :=
  ⟨[("cam1", ⟨List.replicate 9 [0], 0, 7, 1⟩)], ⟨[⟨7, 1, 1⟩], 8, [], 1⟩, [], [], [], [], []⟩

/-- Environment whose clock sits exactly at the grace bound (6 = 5 + 1). -/
def envB : Env := ⟨[devC1], 6, true, true, some 10, true, true⟩

/-- State with a fresh, empty session for `cam1` started at 0. -/
def stF : ServiceState :=
  ⟨[("cam1", ⟨[], 0, 7, 1⟩)], ⟨[⟨7, 1, 1⟩], 8, [], 1⟩, [], [], [], [], []⟩

/-- Environment with the clock just past session start. -/
def envF : Env := ⟨[devC1], 1, true, true, some 9, true, true⟩

/-- Fifty identical valid stream steps. -/
def steps50 : List (Env × StreamPayload) :=
  List.replicate 50 (envF, StreamPayload.jsonImage [3])

/-- Exactly `MAX_VIDEOS` persisted artifacts for device 1, oldest first. -/
def rows50 : List VideoRow :=
  (List.range 50).map (fun i => ⟨i + 1, 1, 1, "", "", 5, 0, i + 1⟩)

/-- State whose database holds exactly `MAX_VIDEOS` artifacts for device 1. -/
def st50 : ServiceState := ⟨[], ⟨[], 1, rows50, 51⟩, [], [], [], [], []⟩

/-- State with an open session for `cam1` holding 5 frames. -/
def stH : ServiceState :=
  ⟨[("cam1", ⟨List.replicate 5 [2], 0, 7, 1⟩)], ⟨[⟨7, 1, 1⟩], 8, [], 1⟩, [], [], [], [], []⟩

/-- Environment where encoding succeeds (file of 10 bytes) but the metadata
insert fails. -/
def envH : Env := ⟨[devC1], 9, true, true, some 10, false, true⟩

/-- Environment where encoding succeeds and the metadata insert commits. -/
def envI : Env := ⟨[devC1], 9, true, true, some 10, true, true⟩

/-- A known, active device for the notification handler. -/
def ndev : NhDeviceRow := ⟨"cam1", 1, 1, "Cam One", true, "a@b", "A"⟩

/-- Empty notification-handler database. -/
def ndb0 : NhDB := ⟨[], 1⟩

/-- Notification-handler environment: everything succeeds, push returns 200. -/
def nenvOk : NhEnv := ⟨[ndev], true, true, true, true, some 200, true⟩

/-- Notification-handler environment: push returns 500. -/
def nenvFail : NhEnv := ⟨[ndev], true, true, true, true, some 500, true⟩

/-! Helper lemmas about the dict and filesystem operations. -/

theorem alookup_aset_self (k : String) (v : Capture) (l : List (String × Capture)) :
    alookup k (aset k v l) = some v := by
  induction l with
  | nil => simp [aset, alookup]
  | cons e rest ih =>
    by_cases h : e.1 = k
    · simp [aset, h, alookup]
    · simp [aset, h, alookup, ih]

theorem alookup_aerase_self (k : String) (l : List (String × Capture)) :
    alookup k (aerase k l) = none := by
  induction l with
  | nil => simp [aerase, alookup]
  | cons e rest ih =>
    by_cases h : e.1 = k
    · simp [aerase, h, ih]
    · simp [aerase, h, alookup, ih]

theorem append_singleton_ne {α : Type} (l : List α) (x : α) : l ++ [x] ≠ l := by
  intro h
  have hlen := congrArg List.length h
  simp at hlen

theorem find?_removeFile (p : String) (fs : List (String × Nat)) :
    (removeFile p fs).find? (fun e => e.1 == p) = none := by
  induction fs with
  | nil => simp [removeFile]
  | cons e rest ih =>
    by_cases h : e.1 = p
    · simp [removeFile, h, ih]
    · simp [removeFile, h, List.find?, ih]

theorem getsize_write (p : String) (fs : List (String × Nat)) (n : Nat) :
    getsize (removeFile p fs ++ [(p, n)]) p = n := by
  have hfind :
      (removeFile p fs ++ [(p, n)]).find? (fun e => e.1 == p) = some (p, n) := by
    induction fs with
    | nil => simp [removeFile, List.find?]
    | cons e rest ih =>
      by_cases h : e.1 = p
      · simpa [removeFile, h] using ih
      · simpa [removeFile, h, List.find?] using ih
  simp [getsize, hfind]

/-- Retention never touches the session table, the publish log, or the
finalize/encoder logs. -/
theorem cleanup_projections (ok : Bool) (i : Nat) (st : ServiceState) :
    (cleanup_old_videos ok i st).active_captures = st.active_captures
      ∧ (cleanup_old_videos ok i st).published = st.published
      ∧ (cleanup_old_videos ok i st).log_finalize_calls = st.log_finalize_calls
      ∧ (cleanup_old_videos ok i st).log_encode_calls = st.log_encode_calls := by
  simp only [cleanup_old_videos]
  split
  · split
    · exact ⟨rfl, rfl, rfl, rfl⟩
    · exact ⟨rfl, rfl, rfl, rfl⟩
  · exact ⟨rfl, rfl, rfl, rfl⟩

/-- Any finalize call on an open session records exactly one finalize event,
carrying the buffered frames, and closes the session. -/
theorem finalize_log_and_close (env : Env) (d : String) (st : ServiceState) (c : Capture)
    (h : alookup d st.active_captures = some c) :
    (finalize_video env d st).log_finalize_calls
        = st.log_finalize_calls ++ [(d, c.frames)]
      ∧ alookup d (finalize_video env d st).active_captures = none := by
  unfold finalize_video
  rw [h]
  by_cases hlen : c.frames.length < 5
  · simp [hlen, alookup_aerase_self]
  · simp only [hlen, if_false]
    cases henc : env.encodeResult with
    | none => simp [create_mjpeg_video, alookup_aerase_self]
    | some sz =>
      cases hsave : env.saveOk with
      | false => simp [create_mjpeg_video, save_video_to_db, alookup_aerase_self]
      | true =>
        simp only [create_mjpeg_video, save_video_to_db, if_true]
        constructor
        · simp [(cleanup_projections env.cleanupOk c.device_db_id _).2.2.1]
        · simp [alookup_aerase_self]

theorem feed_cons (d : String) (p : Env × StreamPayload) (rest : List (Env × StreamPayload))
    (st : ServiceState) :
    feed d (p :: rest) st = feed d rest (process_stream_message p.1 d p.2 st) := rfl

/-- Feeding the exact number of valid frames that completes the target count,
all of them arriving strictly inside the grace window, produces exactly one
finalize call carrying every fed frame in arrival order, and closes the
session. -/
theorem feed_hits_target (d : String) :
    ∀ (steps : List (Env × StreamPayload)) (st : ServiceState) (c : Capture),
      alookup d st.active_captures = some c →
      (∀ p ∈ steps, stepValid p.2 = true ∧ p.1.now - c.start_time < VIDEO_DURATION + 1) →
      c.frames.length + steps.length = VIDEO_DURATION * FRAME_RATE →
      steps ≠ [] →
      (feed d steps st).log_finalize_calls
          = st.log_finalize_calls ++ [(d, c.frames ++ steps.map (fun p => stepBytes p.2))]
        ∧ alookup d (feed d steps st).active_captures = none := by
  intro steps
  induction steps with
  | nil => intro st c _ _ _ hne; exact absurd rfl hne
  | cons p rest ih =>
    intro st c hlook hvalid hlen _
    obtain ⟨hv, helapsed⟩ := hvalid p (List.mem_cons_self p rest)
    cases hp : p.2 with
    | invalid => rw [hp] at hv; simp [stepValid] at hv
    | jsonNoImage => rw [hp] at hv; simp [stepValid] at hv
    | jsonImage b =>
      have hstep : process_stream_message p.1 d p.2 st =
          (if (c.frames ++ [b]).length ≥ VIDEO_DURATION * FRAME_RATE
              ∨ p.1.now - c.start_time ≥ VIDEO_DURATION + 1 then
            finalize_video p.1 d (withFrame d c b st)
          else withFrame d c b st) := by
        rw [hp]; simp [process_stream_message, hlook, withFrame]
      have hlook2 :
          alookup d (withFrame d c b st).active_captures
            = some { c with frames := c.frames ++ [b] } :=
        alookup_aset_self d _ st.active_captures
      cases rest with
      | nil =>
        have hfull : (c.frames ++ [b]).length ≥ VIDEO_DURATION * FRAME_RATE := by
          simp [VIDEO_DURATION, FRAME_RATE] at hlen ⊢
          omega
        rw [feed_cons, hstep, if_pos (Or.inl hfull)]
        obtain ⟨hlog, hcl⟩ := finalize_log_and_close p.1 d (withFrame d c b st)
          { c with frames := c.frames ++ [b] } hlook2
        refine ⟨?_, ?_⟩
        · simpa [feed, withFrame, hp, stepBytes] using hlog
        · simpa [feed] using hcl
      | cons q rest2 =>
        have hnotfull : ¬ ((c.frames ++ [b]).length ≥ VIDEO_DURATION * FRAME_RATE) := by
          simp [VIDEO_DURATION, FRAME_RATE] at hlen ⊢
          omega
        have hnotlate : ¬ (p.1.now - c.start_time ≥ VIDEO_DURATION + 1) := by
          omega
        rw [feed_cons, hstep, if_neg (fun h => h.elim hnotfull hnotlate)]
        have hvalid2 : ∀ r ∈ (q :: rest2),
            stepValid r.2 = true
              ∧ r.1.now - ({ c with frames := c.frames ++ [b] } : Capture).start_time
                  < VIDEO_DURATION + 1 := by
          intro r hr
          simpa using hvalid r (List.mem_cons_of_mem p hr)
        have hlen2 :
            ({ c with frames := c.frames ++ [b] } : Capture).frames.length
                + (q :: rest2).length = VIDEO_DURATION * FRAME_RATE := by
          simp [VIDEO_DURATION, FRAME_RATE] at hlen ⊢
          omega
        obtain ⟨hlog, hcl⟩ := ih (withFrame d c b st)
          { c with frames := c.frames ++ [b] } hlook2 hvalid2 hlen2 (by simp)
        refine ⟨?_, ?_⟩
        · rw [hlog]
          simp [withFrame, hp, stepBytes]
        · exact hcl

/-- One valid-frame ingestion step, written as the explicit
append-then-complete decision it performs. -/
theorem process_stream_image_eq (env : Env) (d : String) (b : Frame) (st : ServiceState)
    (c : Capture) (h : alookup d st.active_captures = some c) :
    process_stream_message env d (StreamPayload.jsonImage b) st =
      (if (c.frames ++ [b]).length ≥ VIDEO_DURATION * FRAME_RATE
          ∨ env.now - c.start_time ≥ VIDEO_DURATION + 1 then
        finalize_video env d (withFrame d c b st)
      else withFrame d c b st) := by
  simp [process_stream_message, h, withFrame]

/-- C1 counterexample: with a session already open for `cam1` (one buffered
frame, correlation id 7), a second motion trigger is not a no-op: the session
entry is overwritten with an empty buffer and a fresh correlation id 8, a new
correlation record is inserted, and a new start command is published. -/
theorem capture_retrigger_not_ignored_cex :
    alookup "cam1" stC1.active_captures = some ⟨[[7]], 3, 7, 1⟩
      ∧ alookup "cam1"
          (on_message envC1 "device/cam1/motion"
            ⟨some "detected", StreamPayload.invalid⟩ stC1).active_captures
          = some ⟨[], 4, 8, 1⟩
      ∧ (on_message envC1 "device/cam1/motion"
          ⟨some "detected", StreamPayload.invalid⟩ stC1).db.motionEvents.length
          = stC1.db.motionEvents.length + 1
      ∧ (on_message envC1 "device/cam1/motion"
          ⟨some "detected", StreamPayload.invalid⟩ stC1).published
          = [("device/cam1/control", "start")] := by decide

/-- C1 (amended): a motion trigger arriving while a session is already open
for the same device is not rejected — the service restarts the session: the
table entry is overwritten with an empty frame buffer and the fresh
correlation identifier, a new correlation record is inserted, and a new
start command is published. -/
theorem capture_retrigger_restarts_session (env : Env) (st : ServiceState) (d : String)
    (c : Capture) (dev : DeviceRow)
    (hopen : alookup d st.active_captures = some c)
    (hdev : get_device_info env.deviceConnOk env.devices d = some dev)
    (hok : env.motionEventOk = true)
    (hfresh : st.db.nextMotionEventId ≠ 0) :
    alookup d (start_video_capture env d st).active_captures
        = some ⟨[], env.now, st.db.nextMotionEventId, dev.id⟩
      ∧ (start_video_capture env d st).db.motionEvents
          = st.db.motionEvents ++ [⟨st.db.nextMotionEventId, dev.id, 1⟩]
      ∧ (start_video_capture env d st).published
          = st.published ++ [("device/" ++ d ++ "/control", "start")] := by
  unfold start_video_capture
  rw [hdev]
  simp [create_motion_event, hok, hfresh, alookup_aset_self]

/-- Witness for `capture_retrigger_restarts_session` at the `stC1` fixture. -/
theorem capture_retrigger_restarts_session_witness :
    alookup "cam1" (start_video_capture envC1 "cam1" stC1).active_captures
        = some ⟨[], envC1.now, stC1.db.nextMotionEventId, devC1.id⟩
      ∧ (start_video_capture envC1 "cam1" stC1).db.motionEvents
          = stC1.db.motionEvents ++ [⟨stC1.db.nextMotionEventId, devC1.id, 1⟩]
      ∧ (start_video_capture envC1 "cam1" stC1).published
          = stC1.published ++ [("device/" ++ "cam1" ++ "/control", "start")] :=
  capture_retrigger_restarts_session envC1 stC1 "cam1" ⟨[[7]], 3, 7, 1⟩ devC1
    (by decide) (by decide) rfl (by decide)

/-- C2 (code bug): the retention enforcer's own contract says "remove oldest
videos if count exceeds MAX_VIDEOS", yet with exactly `MAX_VIDEOS` persisted
artifacts — a count that does not exceed the maximum — it already deletes the
oldest one (the trigger is `count >= MAX_VIDEOS` and it deletes
`count - MAX_VIDEOS + 1`), so only `MAX_VIDEOS - 1` artifacts survive and the
deleted total after N ≥ M finalizes is N − M + 1, not N − M. -/
theorem cleanup_at_cap_deletes_one :
    (videosForDevice st50.db 1).length = MAX_VIDEOS
      ∧ (videosForDevice (cleanup_old_videos true 1 st50).db 1).length = MAX_VIDEOS - 1
      ∧ (cleanup_old_videos true 1 st50).db.motionVideos.all (fun v => v.id != 1) = true := by
  decide

/-- C3 counterexample: at elapsed time exactly `VIDEO_DURATION + 1` — which
does not exceed the grace bound — with only 10 buffered frames (below the
target count), the ingestion call already fires finalize: the session is
closed and a finalize call is recorded, so "fires exactly when the count
reaches target or the elapsed time exceeds target + grace" is false. -/
theorem finalize_fires_at_exact_grace_boundary_cex :
    (process_stream_message envB "cam1"
        (StreamPayload.jsonImage [0]) stB).log_finalize_calls.length = 1
      ∧ alookup "cam1" (process_stream_message envB "cam1"
          (StreamPayload.jsonImage [0]) stB).active_captures = none
      ∧ ¬ (9 + 1 ≥ VIDEO_DURATION * FRAME_RATE)
      ∧ ¬ (envB.now - 0 > VIDEO_DURATION + 1) := by decide

/-- C3 (amended): (i) within a valid-frame ingestion call the completion
check fires exactly when the buffered count has reached
`VIDEO_DURATION * FRAME_RATE` or the elapsed time since session start is at
least (boundary included, not strictly more than) `VIDEO_DURATION + 1`; and
(ii) feeding exactly `VIDEO_DURATION * FRAME_RATE` valid frames, all inside
the grace window, yields exactly one finalize call carrying exactly those
frames in arrival order, and closes the session. -/
theorem capture_completion_count_and_boundary :
    (∀ (env : Env) (d : String) (b : Frame) (st : ServiceState) (c : Capture),
        alookup d st.active_captures = some c →
        ((process_stream_message env d (StreamPayload.jsonImage b) st).log_finalize_calls
              ≠ st.log_finalize_calls
          ↔ (c.frames.length + 1 ≥ VIDEO_DURATION * FRAME_RATE
              ∨ env.now - c.start_time ≥ VIDEO_DURATION + 1)))
    ∧ (∀ (d : String) (steps : List (Env × StreamPayload)) (st : ServiceState) (c : Capture),
        alookup d st.active_captures = some c →
        (∀ p ∈ steps, stepValid p.2 = true ∧ p.1.now - c.start_time < VIDEO_DURATION + 1) →
        c.frames = [] →
        steps.length = VIDEO_DURATION * FRAME_RATE →
        (feed d steps st).log_finalize_calls
            = st.log_finalize_calls ++ [(d, steps.map (fun p => stepBytes p.2))]
          ∧ alookup d (feed d steps st).active_captures = none) := by
  constructor
  · intro env d b st c hlook
    by_cases hcond : (c.frames ++ [b]).length ≥ VIDEO_DURATION * FRAME_RATE
        ∨ env.now - c.start_time ≥ VIDEO_DURATION + 1
    · rw [process_stream_image_eq env d b st c hlook, if_pos hcond]
      obtain ⟨hlog, _⟩ := finalize_log_and_close env d (withFrame d c b st)
        { c with frames := c.frames ++ [b] } (alookup_aset_self d _ st.active_captures)
      refine iff_of_true ?_ (by simpa using hcond)
      rw [hlog]
      simpa [withFrame] using
        append_singleton_ne st.log_finalize_calls (d, c.frames ++ [b])
    · rw [process_stream_image_eq env d b st c hlook, if_neg hcond]
      exact iff_of_false (by simp [withFrame]) (by simpa using hcond)
  · intro d steps st c hlook hvalid hempty hlen
    have h := feed_hits_target d steps st c hlook hvalid
      (by simp [hempty, hlen]) (by intro hn; rw [hn] at hlen; simp [VIDEO_DURATION, FRAME_RATE] at hlen)
    simpa [hempty] using h

/-- Witness for `capture_completion_count_and_boundary`: part (i) at the
9-frame session with the clock at the boundary, part (ii) at a fresh session
fed the 50 steps of `steps50`. -/
theorem capture_completion_count_and_boundary_witness :
    ((process_stream_message envB "cam1"
          (StreamPayload.jsonImage [0]) stB).log_finalize_calls
          ≠ stB.log_finalize_calls
      ↔ ((List.replicate 9 ([0] : Frame)).length + 1 ≥ VIDEO_DURATION * FRAME_RATE
          ∨ envB.now - 0 ≥ VIDEO_DURATION + 1))
    ∧ ((feed "cam1" steps50 stF).log_finalize_calls
          = stF.log_finalize_calls ++ [("cam1", steps50.map (fun p => stepBytes p.2))]
        ∧ alookup "cam1" (feed "cam1" steps50 stF).active_captures = none) :=
  ⟨capture_completion_count_and_boundary.1 envB "cam1" [0] stB
      ⟨List.replicate 9 [0], 0, 7, 1⟩ (by decide),
   capture_completion_count_and_boundary.2 "cam1" steps50 stF
      ⟨[], 0, 7, 1⟩ (by decide) (by decide) rfl (by decide)⟩

/-- C4 counterexample: a motion message for the known device `cam1` (no open
session, all collaborators healthy) whose payload is the marker `motion`
rather than `detected` is ignored outright — no session is started and the
state is untouched, so "whatever the payload bytes are, a capture session is
started" is false. -/
theorem arbitrary_payload_ignored_cex :
    on_message env0 "device/cam1/motion" ⟨some "motion", StreamPayload.invalid⟩ st0 = st0
      ∧ alookup "cam1" st0.active_captures = none
      ∧ get_device_info env0.deviceConnOk env0.devices "cam1" = some devC1 := by decide

/-- C4 (amended): the capture service treats a motion message as "motion
detected" only when its payload decodes as UTF-8 and strips to exactly the
marker `detected`: a payload that does not decode, or that strips to
anything else, leaves the state unchanged, while the exact marker (for a
known device, healthy persistence) installs a fresh session. -/
theorem motion_payload_must_be_detected (env : Env) (topic ns d : String)
    (pay : MsgPayload) (st : ServiceState)
    (htopic : str_split_slash topic = [ns, d, "motion"]) :
    ((∀ s : String, pay.text = some s → pystrip s ≠ "detected") →
        on_message env topic pay st = st)
    ∧ (∀ (s : String) (dev : DeviceRow),
        pay.text = some s →
        pystrip s = "detected" →
        get_device_info env.deviceConnOk env.devices d = some dev →
        env.motionEventOk = true →
        st.db.nextMotionEventId ≠ 0 →
        alookup d (on_message env topic pay st).active_captures
          = some ⟨[], env.now, st.db.nextMotionEventId, dev.id⟩) := by
  constructor
  · intro hne
    cases htext : pay.text with
    | none => simp [on_message, htopic, htext]
    | some s => simp [on_message, htopic, htext, hne s htext]
  · intro s dev htext hs hdev hok hfresh
    have hred : on_message env topic pay st = start_video_capture env d st := by
      simp [on_message, htopic, htext, hs]
    rw [hred]
    unfold start_video_capture
    rw [hdev]
    simp [create_motion_event, hok, hfresh, alookup_aset_self]

/-- Witness for `motion_payload_must_be_detected`: an undecodable payload is
dropped, the payload `motion` is dropped, and the payload `detected` opens a
session for `cam1`. -/
theorem motion_payload_must_be_detected_witness :
    (on_message env0 "device/cam1/motion" ⟨none, StreamPayload.invalid⟩ st0 = st0)
    ∧ (on_message env0 "device/cam1/motion" ⟨some "motion", StreamPayload.invalid⟩ st0 = st0)
    ∧ (alookup "cam1" (on_message env0 "device/cam1/motion"
          ⟨some "detected", StreamPayload.invalid⟩ st0).active_captures
        = some ⟨[], env0.now, st0.db.nextMotionEventId, devC1.id⟩) :=
  ⟨(motion_payload_must_be_detected env0 "device/cam1/motion" "device" "cam1"
      ⟨none, StreamPayload.invalid⟩ st0 (by decide)).1
      (by intro s hs; simp at hs),
   (motion_payload_must_be_detected env0 "device/cam1/motion" "device" "cam1"
      ⟨some "motion", StreamPayload.invalid⟩ st0 (by decide)).1
      (by intro s hs; cases hs; decide),
   (motion_payload_must_be_detected env0 "device/cam1/motion" "device" "cam1"
      ⟨some "detected", StreamPayload.invalid⟩ st0 (by decide)).2
      "detected" devC1 rfl (by decide) (by decide) rfl (by decide)⟩

/-- C5 counterexample: the four-segment topic `device/cam1/motion/extra` is
not dropped by the capture service — the trigger path runs and a session is
created for `cam1`, so "every message whose topic does not have exactly three
segments is dropped silently" is false. -/
theorem four_segment_topic_processed_cex :
    (str_split_slash "device/cam1/motion/extra").length = 4
      ∧ alookup "cam1"
          (on_message env0 "device/cam1/motion/extra"
            ⟨some "detected", StreamPayload.invalid⟩ st0).active_captures
          = some ⟨[], 4, 1, 1⟩ := by decide

/-- C5 (amended): the capture service drops a message only when its topic
has fewer than three segments (a topic with three or more segments is routed
on its second and third segments, extra segments ignored) or when its kind
segment is neither `motion` nor `stream`; the notification handler drops any
topic that does not have exactly three segments. -/
theorem router_topic_segment_handling :
    (∀ (env : Env) (topic : String) (pay : MsgPayload) (st : ServiceState),
        (str_split_slash topic).length < 3 → on_message env topic pay st = st)
    ∧ (∀ (env : Env) (topic : String) (ns d k : String) (rest : List String)
          (pay : MsgPayload) (st : ServiceState),
        str_split_slash topic = ns :: d :: k :: rest →
        k ≠ "motion" → k ≠ "stream" →
        on_message env topic pay st = st)
    ∧ (∀ (env : NhEnv) (topic : String) (pay : NhPayload) (db : NhDB),
        (str_split_slash topic).length ≠ 3 → nh_on_message env topic pay db = db) := by
  refine ⟨?_, ?_, ?_⟩
  · intro env topic pay st h
    simp only [on_message]
    rw [if_pos h]
  · intro env topic ns d k rest pay st htopic hk1 hk2
    simp [on_message, htopic, hk1, hk2]
  · intro env topic pay db h
    unfold nh_on_message
    cases htext : pay.text with
    | none => rfl
    | some s =>
      simp only
      rw [if_pos h]

/-- Witness for `router_topic_segment_handling` on concrete topics: a
two-segment topic and an unknown kind are dropped by the capture service,
and the notification handler drops a four-segment topic. -/
theorem router_topic_segment_handling_witness :
    (on_message env0 "device/cam1" ⟨some "detected", StreamPayload.invalid⟩ st0 = st0)
    ∧ (on_message env0 "device/cam1/control" ⟨some "detected", StreamPayload.invalid⟩ st0 = st0)
    ∧ (nh_on_message nenvOk "device/cam1/motion/extra" ⟨some "x", true⟩ ndb0 = ndb0) :=
  ⟨router_topic_segment_handling.1 env0 "device/cam1"
      ⟨some "detected", StreamPayload.invalid⟩ st0 (by decide),
   router_topic_segment_handling.2.1 env0 "device/cam1/control" "device" "cam1" "control" []
      ⟨some "detected", StreamPayload.invalid⟩ st0 (by decide) (by decide) (by decide),
   router_topic_segment_handling.2.2 nenvOk "device/cam1/motion/extra"
      ⟨some "x", true⟩ ndb0 (by decide)⟩

/-- Retention is a no-op (beyond its invocation log) while the device is
below the cap. -/
theorem cleanup_below_cap (ok : Bool) (i : Nat) (st : ServiceState)
    (h : (videosForDevice st.db i).length < MAX_VIDEOS) :
    cleanup_old_videos ok i st =
      { st with log_cleanup_calls := st.log_cleanup_calls ++ [i] } := by
  have hn : ¬ ((videosForDevice st.db i).length ≥ MAX_VIDEOS) := by omega
  cases ok <;> simp [cleanup_old_videos, hn]

/-- C6: a finalize that runs with fewer than 5 buffered frames aborts: the
session is removed from the table and nothing else changes — in particular
the encoder log, the filesystem, the database and the retention log are
those of the pre-state, and only the finalize call itself is recorded. -/
theorem finalize_insufficient_frames_aborts (env : Env) (d : String) (st : ServiceState)
    (c : Capture)
    (hopen : alookup d st.active_captures = some c)
    (hfew : c.frames.length < 5) :
    finalize_video env d st =
      { st with
          active_captures := aerase d st.active_captures
          log_finalize_calls := st.log_finalize_calls ++ [(d, c.frames)] }
      ∧ alookup d (finalize_video env d st).active_captures = none := by
  refine ⟨?_, ?_⟩ <;> simp [finalize_video, hopen, hfew, alookup_aerase_self]

/-- Witness for `finalize_insufficient_frames_aborts` at the one-frame
session of `stC1`. -/
theorem finalize_insufficient_frames_aborts_witness :
    finalize_video envC1 "cam1" stC1 =
      { stC1 with
          active_captures := aerase "cam1" stC1.active_captures
          log_finalize_calls := stC1.log_finalize_calls ++ [("cam1", [[7]])] }
      ∧ alookup "cam1" (finalize_video envC1 "cam1" stC1).active_captures = none :=
  finalize_insufficient_frames_aborts envC1 "cam1" stC1 ⟨[[7]], 3, 7, 1⟩
    (by decide) (by decide)

/-- C7: when encoding succeeds but the metadata insert fails, the finalize
rolls back: the just-written artifact file is deleted (no entry at its path
survives), the database is unchanged, the retention enforcer is never
invoked, and the session is removed from the table. -/
theorem finalize_save_failure_rolls_back (env : Env) (d : String) (st : ServiceState)
    (c : Capture) (sz : Nat)
    (hopen : alookup d st.active_captures = some c)
    (hlen : 5 ≤ c.frames.length)
    (henc : env.encodeResult = some sz)
    (hsave : env.saveOk = false) :
    (finalize_video env d st).fs.find?
        (fun e => e.1 == VIDEO_DIR ++ "/" ++ (d ++ "_" ++ toString env.now ++ ".mjpeg")) = none
      ∧ (finalize_video env d st).db = st.db
      ∧ (finalize_video env d st).log_cleanup_calls = st.log_cleanup_calls
      ∧ alookup d (finalize_video env d st).active_captures = none := by
  have hnot : ¬ c.frames.length < 5 := by omega
  refine ⟨?_, ?_, ?_, ?_⟩ <;>
    simp [finalize_video, hopen, hnot, create_mjpeg_video, henc, save_video_to_db,
      hsave, find?_removeFile, alookup_aerase_self]

/-- Witness for `finalize_save_failure_rolls_back` at the five-frame session
of `stH` under the failing-insert environment `envH`. -/
theorem finalize_save_failure_rolls_back_witness :
    (finalize_video envH "cam1" stH).fs.find?
        (fun e => e.1 == VIDEO_DIR ++ "/" ++ ("cam1" ++ "_" ++ toString envH.now ++ ".mjpeg"))
        = none
      ∧ (finalize_video envH "cam1" stH).db = stH.db
      ∧ (finalize_video envH "cam1" stH).log_cleanup_calls = stH.log_cleanup_calls
      ∧ alookup "cam1" (finalize_video envH "cam1" stH).active_captures = none :=
  finalize_save_failure_rolls_back envH "cam1" stH ⟨List.replicate 5 [2], 0, 7, 1⟩ 10
    (by decide) (by decide) rfl rfl

/-- C8: a trigger whose device lookup returns nothing, or whose
correlation-record creation fails, leaves the whole state unchanged: no
session entry, no database row, no encoder call, no published command. -/
theorem trigger_failure_leaves_state_unchanged (env : Env) (d : String) (st : ServiceState)
    (h : get_device_info env.deviceConnOk env.devices d = none
        ∨ env.motionEventOk = false) :
    start_video_capture env d st = st := by
  cases h with
  | inl hdev => simp [start_video_capture, hdev]
  | inr hok =>
    unfold start_video_capture
    cases hdev : get_device_info env.deviceConnOk env.devices d with
    | none => rfl
    | some dev => simp [create_motion_event, hok]

/-- Witness for `trigger_failure_leaves_state_unchanged`: a trigger for the
unknown device `ghost` is a complete no-op. -/
theorem trigger_failure_leaves_state_unchanged_witness :
    start_video_capture env0 "ghost" st0 = st0 :=
  trigger_failure_leaves_state_unchanged env0 "ghost" st0 (Or.inl (by decide))

/-- C9: on a fully successful finalize (the encoder writes a `sz`-byte file,
the metadata insert commits, the device is below the retention cap), the
persisted metadata row records exactly the written file's size, and the file
at the recorded path still holds exactly that size after the commit. -/
theorem artifact_filesize_round_trip (env : Env) (d : String) (st : ServiceState)
    (c : Capture) (sz : Nat)
    (hopen : alookup d st.active_captures = some c)
    (hlen : 5 ≤ c.frames.length)
    (henc : env.encodeResult = some sz)
    (hsave : env.saveOk = true)
    (hroom : (videosForDevice st.db c.device_db_id).length + 1 < MAX_VIDEOS) :
    (finalize_video env d st).db.motionVideos
        = st.db.motionVideos ++
          [⟨st.db.nextVideoId, c.device_db_id, c.motion_event_id,
            d ++ "_" ++ toString env.now ++ ".mjpeg",
            VIDEO_DIR ++ "/" ++ (d ++ "_" ++ toString env.now ++ ".mjpeg"),
            VIDEO_DURATION, sz, env.now⟩]
      ∧ getsize (finalize_video env d st).fs
          (VIDEO_DIR ++ "/" ++ (d ++ "_" ++ toString env.now ++ ".mjpeg")) = sz := by
  have hnot : ¬ c.frames.length < 5 := by omega
  have hgs := getsize_write
    (VIDEO_DIR ++ "/" ++ (d ++ "_" ++ toString env.now ++ ".mjpeg")) st.fs sz
  have hroom3 : ¬ (50 ≤
      (List.filter (fun v => v.deviceId == c.device_db_id) st.db.motionVideos).length + 1) := by
    simp [videosForDevice, MAX_VIDEOS] at hroom
    omega
  refine ⟨?_, ?_⟩ <;>
    simp [finalize_video, hopen, hnot, create_mjpeg_video, henc, save_video_to_db, hsave,
      cleanup_old_videos, videosForDevice, MAX_VIDEOS, List.filter_append, hroom3, hgs]

/-- Witness for `artifact_filesize_round_trip` at the five-frame session of
`stH` under the all-success environment `envI`. -/
theorem artifact_filesize_round_trip_witness :
    (finalize_video envI "cam1" stH).db.motionVideos
        = stH.db.motionVideos ++
          [⟨stH.db.nextVideoId, 1, 7,
            "cam1" ++ "_" ++ toString envI.now ++ ".mjpeg",
            VIDEO_DIR ++ "/" ++ ("cam1" ++ "_" ++ toString envI.now ++ ".mjpeg"),
            VIDEO_DURATION, 10, envI.now⟩]
      ∧ getsize (finalize_video envI "cam1" stH).fs
          (VIDEO_DIR ++ "/" ++ ("cam1" ++ "_" ++ toString envI.now ++ ".mjpeg")) = 10 :=
  artifact_filesize_round_trip envI "cam1" stH ⟨List.replicate 5 [2], 0, 7, 1⟩ 10
    (by decide) (by decide) rfl rfl (by decide)

/-- Success condition of the push-notification call: it reports `True`
exactly when the API is configured, the HTTP call returns 200, and the
response body parses. -/
theorem send_push_true_iff (a : Bool) (h : Option Nat) (j : Bool) :
    send_push_notification_to_device_users a h j = true
      ↔ a = true ∧ h = some 200 ∧ j = true := by
  cases a with
  | false => simp [send_push_notification_to_device_users]
  | true =>
    cases h with
    | none => simp [send_push_notification_to_device_users]
    | some code =>
      by_cases hc : code = 200
      · subst hc; simp [send_push_notification_to_device_users]
      · simp [send_push_notification_to_device_users, hc]

/-- C10: the notification handler inserts every motion-event row with
`notificationSent = 0`; in a processed message the freshly inserted row ends
at 1 only when the push call succeeded — which requires an HTTP 200 — and on
any notification failure the row remains persisted with 0. -/
theorem nh_notification_flag_lifecycle (env : NhEnv) (topic dstr : String)
    (pay : NhPayload) (db : NhDB) (s : String) (dev : NhDeviceRow)
    (hfresh : ∀ r ∈ db.motionEvents, r.id < db.nextId)
    (hnz : db.nextId ≠ 0)
    (htopic : str_split_slash topic = ["device", dstr, "motion"])
    (htext : pay.text = some s)
    (hjson : pay.jsonOk = true)
    (hdev : nh_get_device_info env.deviceConnOk env.devices dstr = some dev)
    (hrec : env.recordConnOk = true) :
    ((record_motion_event true dev.id db).2.motionEvents
        = db.motionEvents ++ [⟨db.nextId, dev.id, 0⟩])
    ∧ (∃ sent : Nat,
        (nh_on_message env topic pay db).motionEvents
            = db.motionEvents ++ [⟨db.nextId, dev.id, sent⟩]
          ∧ (sent = 1 → env.apiConfigured = true ∧ env.httpStatus = some 200)
          ∧ (send_push_notification_to_device_users env.apiConfigured env.httpStatus
              env.respJsonOk = false → sent = 0)) := by
  refine ⟨by simp [record_motion_event], ?_⟩
  have hred : nh_on_message env topic pay db =
      (if send_push_notification_to_device_users env.apiConfigured env.httpStatus
          env.respJsonOk = true then
        mark_notification_sent env.markConnOk db.nextId
          { db with
            motionEvents := db.motionEvents ++ [⟨db.nextId, dev.id, 0⟩]
            nextId := db.nextId + 1 }
      else
        { db with
          motionEvents := db.motionEvents ++ [⟨db.nextId, dev.id, 0⟩]
          nextId := db.nextId + 1 }) := by
    simp [nh_on_message, htext, htopic, hjson, hdev, record_motion_event, hrec, hnz]
  cases hsend : send_push_notification_to_device_users env.apiConfigured env.httpStatus
      env.respJsonOk with
  | false =>
    refine ⟨0, ?_, by simp, fun _ => rfl⟩
    rw [hred, if_neg (by simp [hsend])]
  | true =>
    obtain ⟨hcfg, hcode, _⟩ := (send_push_true_iff _ _ _).mp hsend
    cases hmark : env.markConnOk with
    | false =>
      refine ⟨0, ?_, by simp, by simp [hsend]⟩
      rw [hred, if_pos hsend]
      simp [mark_notification_sent, hmark]
    | true =>
      have hmap : ∀ l : List NhEventRow, (∀ r ∈ l, r.id < db.nextId) →
          l.map (fun r => if r.id = db.nextId then { r with notificationSent := 1 } else r)
            = l := by
        intro l hl
        induction l with
        | nil => rfl
        | cons a t ih =>
          have ha := hl a (List.mem_cons_self a t)
          have hne : ¬ a.id = db.nextId := by omega
          simp [hne, ih (fun r hr => hl r (List.mem_cons_of_mem a hr))]
      refine ⟨1, ?_, fun _ => ⟨hcfg, hcode⟩, by simp [hsend]⟩
      rw [hred, if_pos hsend]
      simp [mark_notification_sent, hmark, hmap db.motionEvents hfresh]

/-- Witness for `nh_notification_flag_lifecycle`: a motion message whose push
call returns HTTP 500 leaves the fresh row persisted with the flag at 0. -/
theorem nh_notification_flag_lifecycle_witness :
    ((record_motion_event true ndev.id ndb0).2.motionEvents
        = ndb0.motionEvents ++ [⟨ndb0.nextId, ndev.id, 0⟩])
    ∧ (∃ sent : Nat,
        (nh_on_message nenvFail "device/cam1/motion" ⟨some "x", true⟩ ndb0).motionEvents
            = ndb0.motionEvents ++ [⟨ndb0.nextId, ndev.id, sent⟩]
          ∧ (sent = 1 → nenvFail.apiConfigured = true ∧ nenvFail.httpStatus = some 200)
          ∧ (send_push_notification_to_device_users nenvFail.apiConfigured nenvFail.httpStatus
              nenvFail.respJsonOk = false → sent = 0)) :=
  nh_notification_flag_lifecycle nenvFail "device/cam1/motion" "cam1" ⟨some "x", true⟩
    ndb0 "x" ndev (by decide) (by decide) (by decide) rfl rfl (by decide) rfl

end Birdhouse
